import Mathlib

/-!
Shallow embedding of the picopg micro-ORM core (src/picopg/models.py and
src/picopg/sql_builder.py) and proofs about its SQL statement builders.

Python values that flow through the builders (field values, filter values,
limit/page integers) are modelled by the inductive `Value`; Python `None`
is `Value.null`.  A pydantic model instance is modelled by its
`model_dump()` output: an association list of (field name, value) pairs in
field-declaration order, with unique keys (`PyDict`).

psycopg `sql` objects (`SQL`, `Identifier`, `Composed`) are modelled by the
inductive `SqlFrag`; `Composed.join` is `sqlJoin`.
-/

/-- A Python runtime value as seen by the builders.  `null` is Python `None`. -/
inductive Value where
  | null : Value
  | int (n : Int) : Value
  | str (s : String) : Value
  deriving DecidableEq, Repr

/-- A Python `dict[str, Any]` in insertion order (pydantic `model_dump()`
output, or a filter map).  Keys are unique in every dict the program builds. -/
abbrev PyDict := List (String × Value)

/-- `d.get(k)`: the value bound to `k`, if any. -/
def dictGet (d : PyDict) (k : String) : Option Value :=
  (d.find? (fun p => p.1 == k)).map Prod.snd

/-- `list(d.keys())` in insertion order. -/
def dictKeys (d : PyDict) : List String :=
  d.map Prod.fst

/-- `list(d.values())` in insertion order. -/
def dictValues (d : PyDict) : List Value :=
  d.map Prod.snd

/-- Removing key `k` from a dict (the effect of `d.pop(k, ...)` on the
mapping).  Since dict keys are unique, filtering every pair whose key is `k`
is the same as removing the one entry for `k`. -/
def dictEraseKey (d : PyDict) (k : String) : PyDict :=
  d.filter (fun p => p.1 != k)

/-- `d.pop(k)` with no default: returns the value and the shrunken dict, or
raises `KeyError` when `k` is absent. -/
def dictPop (d : PyDict) (k : String) : Except String (Value × PyDict) :=
  match dictGet d k with
  | some v => Except.ok (v, dictEraseKey d k)
  | none => Except.error ("KeyError: " ++ k)

/-- A psycopg `sql` object: `SQL(s)` is a literal snippet, `Identifier(s)` a
quoted identifier, `Composed(ps)` a sequence rendered by concatenation. -/
inductive SqlFrag where
  | sql (s : String) : SqlFrag
  | ident (s : String) : SqlFrag
  | composed (parts : List SqlFrag) : SqlFrag

/-- Interleave a separator between fragments, as `Composed.join(sep)` does. -/
def joinSep (sep : SqlFrag) : List SqlFrag → List SqlFrag
  | [] => []
  | [x] => [x]
  | x :: xs => x :: sep :: joinSep sep xs

/-- `Composed(parts).join(sep)`. -/
def sqlJoin (parts : List SqlFrag) (sep : SqlFrag) : SqlFrag :=
  SqlFrag.composed (joinSep sep parts)

/-- Auxiliary pass over the characters after the first one: the regex
`(?<!^)(?=[A-Z])` replaced by `_` inserts an underscore before every
uppercase letter that is not at the start of the string. -/
def snakeCaseAux : List Char → List Char
  | [] => []
  | c :: cs => (if c.isUpper then ['_', c] else [c]) ++ snakeCaseAux cs

/-- `re.sub(r"(?<!^)(?=[A-Z])", "_", name).lower()` from
`BaseModel.__init_subclass__`: insert `_` before each internal uppercase
letter, then lower-case everything (ASCII, as in the class names used). -/
def snake_case (s : String) : String :=
  let withUnderscores :=
    match s.data with
    | [] => []
    | c :: cs => c :: snakeCaseAux cs
  String.mk (withUnderscores.map Char.toLower)

/-- The inputs visible to `BaseModel.__init_subclass__` when a model class is
being defined.  `declared_table_name` is what `getattr`/`hasattr` finds for
`__table_name__` at that moment: the class's own declaration or, for a
subclass of an already-declared concrete model, the parent's resolved name;
`none` when no class in the ancestry has set it.  `primary_key` is the
explicitly declared primary-key name (`_primary_key` / `__primary_key__`),
`fields` the pydantic `model_fields` in declaration order, `abstract` the
`__abstract__` marker. -/
structure ModelDecl where
  name : String
  declared_table_name : Option String
  schema : Option String
  primary_key : Option String
  fields : List String
  abstract : Bool
  deriving Repr

/-- A declared model class after `__init_subclass__` has run: the resolved
`__table_name__` and `__full_table_name__` plus the attributes the
`__primary_key__` property and the builders read. -/
structure Model where
  name : String
  table_name : String
  full_table_name : SqlFrag
  schema : Option String
  primary_key : Option String
  fields : List String
  abstract : Bool

/-- The body of `BaseModel.__init_subclass__`: resolve the base table name
(declared/inherited if present, else derived from the class name), then the
fully qualified quoted table reference (schema-prefixed only when the schema
is a truthy, i.e. non-empty, string). -/
def mkModel (d : ModelDecl) : Model :=
  let base_table_name :=
    match d.declared_table_name with
    | some t => t
    | none => snake_case d.name
  let full :=
    match d.schema with
    | some s =>
        if s = "" then SqlFrag.composed [SqlFrag.ident base_table_name]
        else SqlFrag.composed [SqlFrag.ident s, SqlFrag.sql ".", SqlFrag.ident base_table_name]
    | none => SqlFrag.composed [SqlFrag.ident base_table_name]
  { name := d.name
    table_name := base_table_name
    full_table_name := full
    schema := d.schema
    primary_key := d.primary_key
    fields := d.fields
    abstract := d.abstract }

/-- Defining a model class.  Class definition can in principle raise, so the
result is an `Except`; the body of `__init_subclass__` contains no raise and
no primary-key check, so it always succeeds. -/
def declareModel (d : ModelDecl) : Except String Model :=
  Except.ok (mkModel d)

/-- The `__primary_key__` classproperty: the declared key if any, else the
field literally named "id" if present, else raise
`TypeError("<name> does not have a primary key.")` for a concrete class
(and return `""` for an abstract one).  This runs on access, not at class
definition. -/
def primaryKeyOf (m : Model) : Except String String :=
  match m.primary_key with
  | some pk => Except.ok pk
  | none =>
    if m.fields.contains "id" then Except.ok "id"
    else if m.abstract then Except.ok ""
    else Except.error (m.name ++ " does not have a primary key.")

/-- The `__init_subclass__` inputs for a subclass of an already-declared
concrete model that declares no overriding attributes of its own: Python
attribute lookup (`hasattr`/`getattr`) finds the parent's resolved
`__table_name__`, `__schema__`, declared primary key and abstract marker. -/
def subclassDecl (parent : Model) (childName : String) (childFields : List String) : ModelDecl :=
  { name := childName
    declared_table_name := some parent.table_name
    schema := parent.schema
    primary_key := parent.primary_key
    fields := childFields
    abstract := parent.abstract }

/-- `model.model_dump()`: a fresh name→value mapping holding the instance's
field values in declaration order.  It is a copy: mutating it (as the
builders do with `pop`) never touches the instance itself. -/
def model_dump (inst : PyDict) : PyDict := inst

/-- The query shape `build_insert` assembles for a given table reference and
a post-drop data dict: `INSERT INTO <table> (<cols>) VALUES (<placeholders>)
RETURNING *` with one `%s` placeholder per remaining column
(`[SQL("%s")] * len(data)`), columns and placeholders joined by `", "`. -/
def insertShape (table : SqlFrag) (data : PyDict) : SqlFrag :=
  SqlFrag.composed
    [ SqlFrag.sql "INSERT INTO"
    , table
    , SqlFrag.sql "("
    , sqlJoin ((dictKeys data).map SqlFrag.ident) (SqlFrag.sql ", ")
    , SqlFrag.sql ") VALUES ("
    , sqlJoin (List.replicate data.length (SqlFrag.sql "%s")) (SqlFrag.sql ", ")
    , SqlFrag.sql ") RETURNING *" ]

/-- `SQLBuilder.build_insert`, with the instance's own field mapping threaded
through as explicit state (second component): the builder reads the instance
only through `model_dump`, which returns a fresh dict, and every mutation
(`data.pop`) acts on that fresh dict, so the instance state is returned
unchanged on every path. -/
def build_insert_full (m : Model) (inst : PyDict) :
    Except String (SqlFrag × List Value) × PyDict :=
  let data := model_dump inst
  match primaryKeyOf m with
  | Except.error e => (Except.error e, inst)
  | Except.ok pk =>
    let data :=
      if dictGet data pk = none ∨ dictGet data pk = some Value.null
      then dictEraseKey data pk
      else data
    (Except.ok (insertShape m.full_table_name data, dictValues data), inst)

/-- `SQLBuilder.build_insert`: the (query, parameters) result alone. -/
def build_insert (m : Model) (inst : PyDict) : Except String (SqlFrag × List Value) :=
  (build_insert_full m inst).1

/-- The WHERE-clause conditions of `build_select`/`build_count`:
`Composed([Identifier(key), SQL("= %s")])` per filter key, joined by
`" AND "`, in filter-map iteration order. -/
def whereConditions (w : PyDict) : SqlFrag :=
  sqlJoin (w.map (fun kv => SqlFrag.composed [SqlFrag.ident kv.1, SqlFrag.sql "= %s"]))
    (SqlFrag.sql " AND ")

/-- The `query_parts` and `params` lists `SQLBuilder.build_select` has built
just before wrapping the parts in a `Composed`.  A `where` dict participates
only when truthy (present and non-empty); a limit only when truthy (present
and non-zero). -/
def selectParts (m : Model) (w : Option PyDict) (limit : Option Int) :
    List SqlFrag × List Value :=
  let query_parts := [SqlFrag.sql "SELECT * FROM", m.full_table_name]
  let params : List Value := []
  let (query_parts, params) :=
    match w with
    | some ws =>
      match ws with
      | [] => (query_parts, params)
      | _ :: _ =>
          (query_parts ++ [SqlFrag.sql "WHERE", whereConditions ws],
           params ++ ws.map Prod.snd)
    | none => (query_parts, params)
  match limit with
  | some n =>
      if n = 0 then (query_parts, params)
      else (query_parts ++ [SqlFrag.sql "LIMIT %s"], params ++ [Value.int n])
  | none => (query_parts, params)

/-- `SQLBuilder.build_select`. -/
def build_select (m : Model) (w : Option PyDict) (limit : Option Int) :
    SqlFrag × List Value :=
  let (query_parts, params) := selectParts m w limit
  (SqlFrag.composed query_parts, params)

/-- The query shape `build_update` assembles: `UPDATE <table> SET <col> = %s,
... WHERE <pk_col> = %s RETURNING *`, SET entries joined by `", "`. -/
def updateShape (table : SqlFrag) (data : PyDict) (pk : String) : SqlFrag :=
  SqlFrag.composed
    [ SqlFrag.sql "UPDATE"
    , table
    , SqlFrag.sql "SET"
    , sqlJoin (data.map (fun kv => SqlFrag.composed [SqlFrag.ident kv.1, SqlFrag.sql "= %s"]))
        (SqlFrag.sql ", ")
    , SqlFrag.sql "WHERE"
    , SqlFrag.ident pk
    , SqlFrag.sql "= %s RETURNING *" ]

/-- `SQLBuilder.build_update` with the instance state threaded through, as in
`build_insert_full`: `pk_value = data.pop(__primary_key__)` pops from the
fresh dump (raising `KeyError` when the primary-key name is not a dumped
field), the SET list is built from the remaining entries, and the parameter
list is their values followed by the popped primary-key value. -/
def build_update_full (m : Model) (inst : PyDict) :
    Except String (SqlFrag × List Value) × PyDict :=
  let data := model_dump inst
  match primaryKeyOf m with
  | Except.error e => (Except.error e, inst)
  | Except.ok pk =>
    match dictPop data pk with
    | Except.error e => (Except.error e, inst)
    | Except.ok (pk_value, data) =>
        (Except.ok (updateShape m.full_table_name data pk, dictValues data ++ [pk_value]),
         inst)

/-- `SQLBuilder.build_update`: the (query, parameters) result alone. -/
def build_update (m : Model) (inst : PyDict) : Except String (SqlFrag × List Value) :=
  (build_update_full m inst).1

/-- `SQLBuilder.build_delete` with the instance state threaded through:
`getattr(model, __primary_key__)` reads the primary-key field off the
instance (raising `AttributeError` when it is not a field), and the query is
`DELETE FROM <table> WHERE <pk_col> = %s` with the single parameter. -/
def build_delete_full (m : Model) (inst : PyDict) :
    Except String (SqlFrag × List Value) × PyDict :=
  match primaryKeyOf m with
  | Except.error e => (Except.error e, inst)
  | Except.ok pk =>
    match dictGet inst pk with
    | none => (Except.error ("AttributeError: " ++ pk), inst)
    | some pk_value =>
        (Except.ok
          (SqlFrag.composed
            [ SqlFrag.sql "DELETE FROM"
            , m.full_table_name
            , SqlFrag.sql "WHERE"
            , SqlFrag.ident pk
            , SqlFrag.sql "= %s" ],
           [pk_value]),
         inst)

/-- `SQLBuilder.build_delete`: the (query, parameters) result alone. -/
def build_delete (m : Model) (inst : PyDict) : Except String (SqlFrag × List Value) :=
  (build_delete_full m inst).1

/-- `SQLBuilder.build_paginate`: reuse `build_select(model_class, where)`
with no limit, wrap the query with `LIMIT %s OFFSET %s`, and extend the
parameters with `[page_size, (page - 1) * page_size]`. -/
def build_paginate (m : Model) (page : Int) (page_size : Int) (w : Option PyDict) :
    SqlFrag × List Value :=
  let (query, params) := build_select m w none
  let offset := (page - 1) * page_size
  (SqlFrag.composed [query, SqlFrag.sql "LIMIT %s OFFSET %s"],
   params ++ [Value.int page_size, Value.int offset])

/-- A concrete model declaration mirroring the repository's `User` test model
(fields `id`, `name`, `email`; no explicit table name or schema; the primary
key resolves to the field named "id"). -/
def userDecl : ModelDecl :=
  { name := "User"
    declared_table_name := none
    schema := none
    primary_key := none
    fields := ["id", "name", "email"]
    abstract := false }

/-- The declared `User` model class. -/
def userModel : Model := mkModel userDecl

/-- Helper: removing key `k` from a dict removes it from the key list. -/
theorem not_mem_keys_erase (d : PyDict) (k : String) :
    k ∉ dictKeys (dictEraseKey d k) := by
  intro hmem
  simp only [dictKeys, dictEraseKey, List.mem_map, List.mem_filter] at hmem
  obtain ⟨p, ⟨_, hne⟩, hfst⟩ := hmem
  simp [hfst] at hne

/-- Claim C9: `build_select` with `limit = 0` behaves exactly as with no
limit at all, because the Python code guards the LIMIT clause with the
truthiness test `if limit:` and `0` is falsy: no LIMIT fragment is appended
and `0` is not added to the parameters. -/
theorem build_select_zero_limit_eq_no_limit (m : Model) (w : Option PyDict) :
    build_select m w (some 0) = build_select m w none := by
  cases w with
  | none => rfl
  | some ws => cases ws <;> rfl

/-- Claim C5: `build_paginate` is exactly `build_select` with no limit,
wrapped with `LIMIT %s OFFSET %s`, with parameters extended by
`[page_size, (page - 1) * page_size]`; page 1 yields offset 0, and
page 2 with page_size 5 yields parameters ending in `[5, 5]`. -/
theorem build_paginate_refines_build_select (m : Model) (page page_size : Int)
    (w : Option PyDict) :
    build_paginate m page page_size w =
      (SqlFrag.composed [(build_select m w none).1, SqlFrag.sql "LIMIT %s OFFSET %s"],
       (build_select m w none).2 ++
         [Value.int page_size, Value.int ((page - 1) * page_size)]) ∧
    (build_paginate m 1 page_size w).2 =
      (build_select m w none).2 ++ [Value.int page_size, Value.int 0] ∧
    (build_paginate m 2 5 w).2 =
      (build_select m w none).2 ++ [Value.int 5, Value.int 5] := by
  refine ⟨rfl, by norm_num [build_paginate], by norm_num [build_paginate]⟩

/-- Claim C6: `build_select` with an absent or empty filter emits no WHERE
clause and an empty parameter list; with a non-empty filter it appends
`WHERE` and one `<col> = %s` equality per filter entry joined by `AND`, in
filter iteration order, with the filter values as parameters in that order;
for the filter `{a: 1, b: 2}` the conditions are `"a" = %s AND "b" = %s`
with parameters `[1, 2]`. -/
theorem build_select_where_clause (m : Model) (w : PyDict) (hw : w ≠ []) :
    build_select m (some w) none =
      (SqlFrag.composed [SqlFrag.sql "SELECT * FROM", m.full_table_name,
         SqlFrag.sql "WHERE", whereConditions w],
       w.map Prod.snd) ∧
    build_select m none none =
      (SqlFrag.composed [SqlFrag.sql "SELECT * FROM", m.full_table_name], []) ∧
    build_select m (some []) none =
      (SqlFrag.composed [SqlFrag.sql "SELECT * FROM", m.full_table_name], []) ∧
    whereConditions [("a", Value.int 1), ("b", Value.int 2)] =
      SqlFrag.composed
        [ SqlFrag.composed [SqlFrag.ident "a", SqlFrag.sql "= %s"]
        , SqlFrag.sql " AND "
        , SqlFrag.composed [SqlFrag.ident "b", SqlFrag.sql "= %s"] ] ∧
    (build_select m (some [("a", Value.int 1), ("b", Value.int 2)]) none).2 =
      [Value.int 1, Value.int 2] := by
  cases w with
  | nil => exact absurd rfl hw
  | cons kv rest => exact ⟨rfl, rfl, rfl, rfl, rfl⟩

/-- Witness for C6 at the `User` model and the filter `{a: 1, b: 2}`. -/
theorem build_select_where_clause_witness :
    build_select userModel (some [("a", Value.int 1), ("b", Value.int 2)]) none =
      (SqlFrag.composed [SqlFrag.sql "SELECT * FROM", userModel.full_table_name,
         SqlFrag.sql "WHERE", whereConditions [("a", Value.int 1), ("b", Value.int 2)]],
       [Value.int 1, Value.int 2]) :=
  (build_select_where_clause userModel [("a", Value.int 1), ("b", Value.int 2)]
    (by decide)).1

/-- Counterexample to claim C1 as stated: with filter `{name: "x"}` and
limit 3, the parameter list is `["x", 3]`, not just the filter values
`["x"]`, and the query ends with the placeholder fragment `LIMIT %s`
rather than an inlined `LIMIT 3`. -/
theorem select_limit_not_inlined_cx :
    (build_select userModel (some [("name", Value.str "x")]) (some 3)).2 =
      [Value.str "x", Value.int 3] ∧
    (build_select userModel (some [("name", Value.str "x")]) (some 3)).2 ≠
      [Value.str "x"] ∧
    (selectParts userModel (some [("name", Value.str "x")]) (some 3)).1.getLast? =
      some (SqlFrag.sql "LIMIT %s") := by
  refine ⟨rfl, by decide, rfl⟩

/-- Claim C1 as amended: when a non-zero limit `n` is given, `build_select`
appends the parameter placeholder fragment `LIMIT %s` to the query parts and
appends `n` to the parameter list after the filter values. -/
theorem select_limit_parameterized (m : Model) (w : Option PyDict) (n : Int)
    (hn : n ≠ 0) :
    build_select m w (some n) =
      (SqlFrag.composed ((selectParts m w none).1 ++ [SqlFrag.sql "LIMIT %s"]),
       (selectParts m w none).2 ++ [Value.int n]) := by
  cases w with
  | none => simp [build_select, selectParts, hn]
  | some ws => cases ws <;> simp [build_select, selectParts, hn]

/-- Witness for the amended C1 at the `User` model with limit 3. -/
theorem select_limit_parameterized_witness :
    build_select userModel none (some 3) =
      (SqlFrag.composed ((selectParts userModel none none).1 ++ [SqlFrag.sql "LIMIT %s"]),
       (selectParts userModel none none).2 ++ [Value.int 3]) :=
  select_limit_parameterized userModel none 3 (by decide)

/-- A declaration mirroring a model class named `UserProfile` with no
explicit table name. -/
def userProfileDecl : ModelDecl :=
  { name := "UserProfile"
    declared_table_name := none
    schema := none
    primary_key := none
    fields := ["id", "bio"]
    abstract := false }

/-- Claim C7: when no table name is declared (or inherited), the table name
is derived by inserting an underscore before each internal uppercase letter
of the type name and lower-casing; in particular `UserProfile` yields
`user_profile`. -/
theorem table_name_snake_case (d : ModelDecl) (h : d.declared_table_name = none) :
    (∃ m, declareModel d = Except.ok m ∧ m.table_name = snake_case d.name) ∧
    snake_case "UserProfile" = "user_profile" := by
  refine ⟨⟨mkModel d, rfl, ?_⟩, by decide⟩
  simp [mkModel, h]

/-- Witness for C7 at the `UserProfile` declaration. -/
theorem table_name_snake_case_witness :
    (∃ m, declareModel userProfileDecl = Except.ok m ∧
       m.table_name = snake_case "UserProfile") ∧
    snake_case "UserProfile" = "user_profile" :=
  table_name_snake_case userProfileDecl rfl

/-- Claim C10: a subclass of an already-declared concrete model inherits the
parent's resolved table name unchanged (`hasattr(cls, "__table_name__")`
finds the parent's attribute, so no new name is derived from the subclass's
own class name); concretely, a subclass `AdminUser` of `User` keeps table
name `user` even though its own name would derive to `admin_user`. -/
theorem subclass_inherits_table_name (parent : Model) (childName : String)
    (childFields : List String) :
    (∃ c, declareModel (subclassDecl parent childName childFields) = Except.ok c ∧
       c.table_name = parent.table_name) ∧
    (mkModel (subclassDecl (mkModel userDecl) "AdminUser" ["id", "name", "email"])).table_name
      = "user" ∧
    snake_case "AdminUser" = "admin_user" := by
  exact ⟨⟨mkModel (subclassDecl parent childName childFields), rfl, rfl⟩,
    by decide, by decide⟩

/-- A declaration of a concrete model class named `Widget` with no declared
primary key and no field named "id". -/
def widgetDecl : ModelDecl :=
  { name := "Widget"
    declared_table_name := none
    schema := none
    primary_key := none
    fields := ["label"]
    abstract := false }

/-- Counterexample to claim C2 as stated: defining the concrete `Widget`
class, which has no resolvable primary key, succeeds (`__init_subclass__`
performs no primary-key check and raises nothing); the configuration error
is raised only when `__primary_key__` is accessed. -/
theorem missing_pk_declaration_succeeds_cx :
    (declareModel widgetDecl).isOk = true ∧
    primaryKeyOf (mkModel widgetDecl) =
      Except.error "Widget does not have a primary key." := by
  exact ⟨rfl, rfl⟩

/-- Claim C2 as amended: declaring a concrete model type with no declared
primary key and no field named "id" succeeds; the configuration error
`TypeError("<name> does not have a primary key.")` is raised on first access
of `__primary_key__` (that is, when a builder or instance operation needs
the primary key), not at type-definition time. -/
theorem missing_pk_error_at_access (d : ModelDecl)
    (habs : d.abstract = false) (hdk : d.primary_key = none)
    (hid : "id" ∉ d.fields) :
    ∃ m, declareModel d = Except.ok m ∧
      primaryKeyOf m = Except.error (d.name ++ " does not have a primary key.") := by
  refine ⟨mkModel d, rfl, ?_⟩
  simp [primaryKeyOf, mkModel, hdk, hid, habs]

/-- Witness for the amended C2 at the `Widget` declaration. -/
theorem missing_pk_error_at_access_witness :
    ∃ m, declareModel widgetDecl = Except.ok m ∧
      primaryKeyOf m =
        Except.error ("Widget" ++ " does not have a primary key.") :=
  missing_pk_error_at_access widgetDecl rfl rfl (by decide)

/-- Claim C3: when the primary-key field's value is null, `build_insert`
drops the primary-key column from the column list, the placeholders and the
parameters; for any instance, the query is the `INSERT INTO <table> (<cols>)
VALUES (<placeholders>) RETURNING *` shape (`insertShape`, which carries one
`%s` placeholder per remaining column) and the parameters are the remaining
values in column-list order. -/
theorem build_insert_omits_null_pk (m : Model) (inst inst2 : PyDict)
    (pk : String) (v : Value)
    (hpk : primaryKeyOf m = Except.ok pk)
    (hnull : dictGet inst pk = some Value.null)
    (hv : dictGet inst2 pk = some v) (hvnull : v ≠ Value.null) :
    build_insert m inst =
      Except.ok (insertShape m.full_table_name (dictEraseKey inst pk),
                 dictValues (dictEraseKey inst pk)) ∧
    pk ∉ dictKeys (dictEraseKey inst pk) ∧
    build_insert m inst2 =
      Except.ok (insertShape m.full_table_name inst2, dictValues inst2) := by
  refine ⟨?_, not_mem_keys_erase inst pk, ?_⟩
  · simp [build_insert, build_insert_full, model_dump, hpk, hnull]
  · simp [build_insert, build_insert_full, model_dump, hpk, hv, hvnull]

/-- Witness for C3 at the `User` model: an instance with `id = None` loses
the `id` column; an instance with `id = 7` keeps all columns. -/
theorem build_insert_omits_null_pk_witness :
    build_insert userModel [("id", Value.null), ("name", Value.str "n"), ("email", Value.str "e")] =
      Except.ok
        (insertShape userModel.full_table_name
          (dictEraseKey [("id", Value.null), ("name", Value.str "n"), ("email", Value.str "e")] "id"),
         dictValues
          (dictEraseKey [("id", Value.null), ("name", Value.str "n"), ("email", Value.str "e")] "id")) ∧
    "id" ∉ dictKeys
      (dictEraseKey [("id", Value.null), ("name", Value.str "n"), ("email", Value.str "e")] "id") ∧
    build_insert userModel [("id", Value.int 7), ("name", Value.str "n"), ("email", Value.str "e")] =
      Except.ok
        (insertShape userModel.full_table_name
          [("id", Value.int 7), ("name", Value.str "n"), ("email", Value.str "e")],
         dictValues [("id", Value.int 7), ("name", Value.str "n"), ("email", Value.str "e")]) :=
  build_insert_omits_null_pk userModel
    [("id", Value.null), ("name", Value.str "n"), ("email", Value.str "e")]
    [("id", Value.int 7), ("name", Value.str "n"), ("email", Value.str "e")]
    "id" (Value.int 7) rfl rfl rfl (by decide)

/-- Claim C4: `build_update` pops the primary-key column out of the SET
clause, builds `UPDATE <table> SET <col> = %s, ... WHERE <pk_col> = %s
RETURNING *` (`updateShape`), and returns the non-primary-key values in SET
order followed by the primary-key value as the last parameter. -/
theorem build_update_pk_where_last (m : Model) (inst : PyDict)
    (pk : String) (v : Value)
    (hpk : primaryKeyOf m = Except.ok pk)
    (hv : dictGet inst pk = some v) :
    build_update m inst =
      Except.ok (updateShape m.full_table_name (dictEraseKey inst pk) pk,
                 dictValues (dictEraseKey inst pk) ++ [v]) ∧
    pk ∉ dictKeys (dictEraseKey inst pk) ∧
    (dictValues (dictEraseKey inst pk) ++ [v]).getLast? = some v := by
  refine ⟨?_, not_mem_keys_erase inst pk, by simp⟩
  simp [build_update, build_update_full, model_dump, dictPop, hpk, hv]

/-- Witness for C4 at the `User` model with primary-key value 7. -/
theorem build_update_pk_where_last_witness :
    build_update userModel [("id", Value.int 7), ("name", Value.str "n"), ("email", Value.str "e")] =
      Except.ok
        (updateShape userModel.full_table_name
          (dictEraseKey [("id", Value.int 7), ("name", Value.str "n"), ("email", Value.str "e")] "id")
          "id",
         dictValues
          (dictEraseKey [("id", Value.int 7), ("name", Value.str "n"), ("email", Value.str "e")] "id")
          ++ [Value.int 7]) ∧
    "id" ∉ dictKeys
      (dictEraseKey [("id", Value.int 7), ("name", Value.str "n"), ("email", Value.str "e")] "id") ∧
    (dictValues
      (dictEraseKey [("id", Value.int 7), ("name", Value.str "n"), ("email", Value.str "e")] "id")
      ++ [Value.int 7]).getLast? = some (Value.int 7) :=
  build_update_pk_where_last userModel
    [("id", Value.int 7), ("name", Value.str "n"), ("email", Value.str "e")]
    "id" (Value.int 7) rfl rfl

/-- Claim C8: the builders taking an instance never mutate it — the
instance's field mapping after `build_insert`/`build_update`/`build_delete`
is identical to the one before, on every path (including the error paths) —
and calling the same builder a second time on the same (unchanged) instance
yields an identical (query, parameters) result. -/
theorem builders_do_not_mutate (m : Model) (inst : PyDict) :
    (build_insert_full m inst).2 = inst ∧
    (build_update_full m inst).2 = inst ∧
    (build_delete_full m inst).2 = inst ∧
    (build_insert_full m ((build_insert_full m inst).2)).1 = (build_insert_full m inst).1 ∧
    (build_update_full m ((build_update_full m inst).2)).1 = (build_update_full m inst).1 ∧
    (build_delete_full m ((build_delete_full m inst).2)).1 = (build_delete_full m inst).1 := by
  have hi : (build_insert_full m inst).2 = inst := by
    rcases h : primaryKeyOf m with e | pk <;>
      simp [build_insert_full, h, model_dump]
  have hu : (build_update_full m inst).2 = inst := by
    rcases h : primaryKeyOf m with e | pk
    · simp [build_update_full, h, model_dump]
    · rcases h2 : dictPop inst pk with e2 | p2 <;>
        simp [build_update_full, h, h2, model_dump]
  have hd : (build_delete_full m inst).2 = inst := by
    rcases h : primaryKeyOf m with e | pk
    · simp [build_delete_full, h]
    · rcases h2 : dictGet inst pk with _ | pv <;>
        simp [build_delete_full, h, h2]
  exact ⟨hi, hu, hd, by rw [hi], by rw [hu], by rw [hd]⟩
